import Mathlib

/-!
Shallow embedding of the posture-analysis core of the HTN-2025 repository
(the `poseUtils` module: geometry kernel, metric classification, sitting
metrics, frame-level posture assessment, and One-Euro filter), together
with theorems settling the specification claims against it.

JavaScript numbers are modelled as real numbers; `Math.sqrt`, `Math.acos`
and `Math.PI` become `Real.sqrt`, `Real.arccos` and `Real.pi`.  A landmark
frame is modelled as a total function from landmark index to landmark,
matching the source's invariant of a fixed 33-element, index-aligned
sequence.  Message strings produced by the frame assessment are modelled
as an inductive type whose constructors stand for the exact source
strings (the slouching constructor carries the raw trunk-flexion number
that the source interpolates into its message).
-/

noncomputable section

/-- Mirrors the TS interface `PoseLandmark`: `visibility` is optional
(`none` models an absent field). The unused `presence` field is omitted. -/
structure PoseLandmark where
  x : ℝ
  y : ℝ
  z : ℝ
  visibility : Option ℝ := none

/-- The TS idiom `landmark.visibility || 0` (absent visibility treated as 0). -/
def visOr0 (lm : PoseLandmark) : ℝ := lm.visibility.getD 0

-- Landmark indices used by the analysed functions (from `POSE_LANDMARKS`).
def NOSE : Nat := 0
def LEFT_EAR : Nat := 7
def RIGHT_EAR : Nat := 8
def LEFT_SHOULDER : Nat := 11
def RIGHT_SHOULDER : Nat := 12
def LEFT_ELBOW : Nat := 13
def LEFT_WRIST : Nat := 15
def LEFT_HIP : Nat := 23
def RIGHT_HIP : Nat := 24
def LEFT_KNEE : Nat := 25
def LEFT_ANKLE : Nat := 27

/-- The four-valued classification level `"green"|"yellow"|"red"|"na"`. -/
inductive Level where
  | green
  | yellow
  | red
  | na
deriving DecidableEq, Repr

/-- `calculateAngle(point1, point2, point3)`: angle at vertex `point2`
between the 2D rays toward `point1` and `point3`, in degrees.  Returns 0
when either ray has zero magnitude; otherwise the cosine is clamped to
[-1, 1] before `acos`. -/
def calculateAngle (point1 point2 point3 : PoseLandmark) : ℝ :=
  let v1x := point1.x - point2.x
  let v1y := point1.y - point2.y
  let v2x := point3.x - point2.x
  let v2y := point3.y - point2.y
  let dotProduct := v1x * v2x + v1y * v2y
  let magnitude1 := Real.sqrt (v1x * v1x + v1y * v1y)
  let magnitude2 := Real.sqrt (v2x * v2x + v2y * v2y)
  if magnitude1 = 0 ∨ magnitude2 = 0 then 0
  else
    let cosAngle := dotProduct / (magnitude1 * magnitude2)
    let angle := Real.arccos (max (-1) (min 1 cosAngle))
    angle * 180 / Real.pi

/-- `calculateDistance`: planar (x, y) Euclidean distance. -/
def calculateDistance (point1 point2 : PoseLandmark) : ℝ :=
  Real.sqrt ((point1.x - point2.x) * (point1.x - point2.x) +
             (point1.y - point2.y) * (point1.y - point2.y))

/-- `getMidpoint`: componentwise average; visibility of the result is the
minimum of the two inputs' visibilities (absent treated as 0). -/
def getMidpoint (point1 point2 : PoseLandmark) : PoseLandmark :=
  { x := (point1.x + point2.x) / 2
    y := (point1.y + point2.y) / 2
    z := (point1.z + point2.z) / 2
    visibility := some (min (visOr0 point1) (visOr0 point2)) }

/-- `isLandmarkVisible(landmark, threshold = 0.3)`:
`(landmark.visibility || 0) >= threshold`. -/
def isLandmarkVisible (landmark : PoseLandmark) (threshold : ℝ := 0.3) : Bool :=
  decide (visOr0 landmark ≥ threshold)

/-- A green/yellow/red band triple as in the TS bands objects, each band a
`[lo, hi]` pair. -/
structure Bands where
  green : ℝ × ℝ
  yellow : ℝ × ℝ
  red : ℝ × ℝ

/-- `classify(value, bands)`: green if within the closed green interval,
else yellow if within the closed yellow interval, else red. -/
def classify (value : ℝ) (bands : Bands) : Level :=
  if bands.green.1 ≤ value ∧ value ≤ bands.green.2 then .green
  else if bands.yellow.1 ≤ value ∧ value ≤ bands.yellow.2 then .yellow
  else .red

/-- `classifyElbow`: interior green band with two-sided yellow shoulders. -/
def classifyElbow (value : ℝ) : Level :=
  if 90 ≤ value ∧ value ≤ 110 then .green
  else if (75 ≤ value ∧ value < 90) ∨ (110 < value ∧ value ≤ 125) then .yellow
  else .red

/-- `classifyKnee`: interior green band with two-sided yellow shoulders. -/
def classifyKnee (value : ℝ) : Level :=
  if 80 ≤ value ∧ value ≤ 110 then .green
  else if (70 ≤ value ∧ value < 80) ∨ (110 < value ∧ value ≤ 120) then .yellow
  else .red

/-- `classifyPelvicTilt`: banding on the absolute value. -/
def classifyPelvicTilt (value : ℝ) : Level :=
  if |value| ≤ 10 then .green
  else if |value| ≤ 20 then .yellow
  else .red

/-- The `METRIC_THRESHOLDS` table. -/
structure MetricThresholds where
  cvaDeg : Bands
  trunkDeg : Bands
  pelvicTiltDegDelta : Bands
  elbowDeg : Bands
  kneeDeg : Bands
  neckVarDegPerMin : Bands

def METRIC_THRESHOLDS : MetricThresholds where
  cvaDeg := ⟨(50, 180), (40, 50), (0, 40)⟩
  trunkDeg := ⟨(0, 20), (20, 30), (30, 180)⟩
  pelvicTiltDegDelta := ⟨(-10, 10), (-20, -10), (-180, -20)⟩
  elbowDeg := ⟨(90, 110), (75, 90), (0, 75)⟩
  kneeDeg := ⟨(80, 110), (70, 80), (0, 70)⟩
  neckVarDegPerMin := ⟨(0, 6), (6, 10), (10, 180)⟩

/-- The TS `MetricValue` record (its optional `confidence` always receives a
value from `createMetric`, so it is modelled as a plain field). -/
structure MetricValue where
  value : ℝ
  sigma : ℝ
  level : Level
  visible : Bool
  confidence : ℝ

/-- The TS `SittingMetrics` record. -/
structure SittingMetrics where
  cvaDeg : MetricValue
  trunkDeg : MetricValue
  pelvicTiltDegDelta : MetricValue
  pelvicTiltDeg : MetricValue
  elbowDeg : MetricValue
  kneeDeg : MetricValue
  neckVarDegPerMin : MetricValue
  ergoScore : MetricValue

/-- The calibration baseline `{pelvicTilt, shoulderWidth}`. -/
structure Baseline where
  pelvicTilt : ℝ
  shoulderWidth : ℝ

/-- A landmark frame: index-aligned total map from landmark index to
landmark (the source's fixed 33-element array). -/
def Frame : Type := Nat → PoseLandmark

/-- `calculateStandardDeviation`: sample (Bessel-corrected) standard
deviation; 0 for fewer than two values.  JS `values.length - 1` is number
arithmetic, hence real subtraction. -/
def calculateStandardDeviation (values : List ℝ) : ℝ :=
  if values.length < 2 then 0
  else
    let mean := values.sum / (values.length : ℝ)
    let variance := (values.map (fun val => (val - mean) ^ 2)).sum / ((values.length : ℝ) - 1)
    Real.sqrt variance

/-- `createMetric` helper inside `calculateSittingMetrics`: the level is
always computed from the `cvaDeg` thresholds when visible (the source
comments this as a placeholder to be overridden by the caller). -/
def createMetric (value : ℝ) (visible : Bool) (confidence : ℝ := 1.0) : MetricValue :=
  { value := value
    sigma := if visible then 0.1 else 1.0
    level := if visible then classify value METRIC_THRESHOLDS.cvaDeg else .na
    visible := visible
    confidence := confidence }

-- The named intermediate constants of `calculateSittingMetrics`, hoisted to
-- top-level definitions of the frame (and baseline / history) they read.

/-- `shoulderMidpoint` in `calculateSittingMetrics`. -/
def shoulderMidpoint (lms : Frame) : PoseLandmark :=
  getMidpoint (lms LEFT_SHOULDER) (lms RIGHT_SHOULDER)

/-- `hipMidpoint` in `calculateSittingMetrics`. -/
def hipMidpoint (lms : Frame) : PoseLandmark :=
  getMidpoint (lms LEFT_HIP) (lms RIGHT_HIP)

/-- `cvaVisible`: both ears and both shoulders at the 0.3 threshold. -/
def cvaVisible (lms : Frame) : Bool :=
  isLandmarkVisible (lms LEFT_EAR) 0.3 && isLandmarkVisible (lms RIGHT_EAR) 0.3 &&
  isLandmarkVisible (lms LEFT_SHOULDER) 0.3 && isLandmarkVisible (lms RIGHT_SHOULDER) 0.3

/-- `earMidpoint`: ear midpoint when the CVA landmarks are visible, else the nose. -/
def earMidpoint (lms : Frame) : PoseLandmark :=
  if cvaVisible lms then getMidpoint (lms LEFT_EAR) (lms RIGHT_EAR) else lms NOSE

/-- `cvaAngle`: angle at the shoulder midpoint between vertical-up and the
ear midpoint, 0 when not visible. -/
def cvaAngle (lms : Frame) : ℝ :=
  if cvaVisible lms then
    calculateAngle { shoulderMidpoint lms with y := (shoulderMidpoint lms).y - 1 }
      (shoulderMidpoint lms) (earMidpoint lms)
  else 0

/-- `trunkVisible`: both shoulders and both hips at the 0.3 threshold. -/
def trunkVisible (lms : Frame) : Bool :=
  isLandmarkVisible (lms LEFT_SHOULDER) 0.3 && isLandmarkVisible (lms RIGHT_SHOULDER) 0.3 &&
  isLandmarkVisible (lms LEFT_HIP) 0.3 && isLandmarkVisible (lms RIGHT_HIP) 0.3

/-- `trunkAngle`: angle at the shoulder midpoint between vertical-down and
the hip midpoint, 0 when not visible. -/
def trunkAngle (lms : Frame) : ℝ :=
  if trunkVisible lms then
    calculateAngle { shoulderMidpoint lms with y := (shoulderMidpoint lms).y + 1 }
      (shoulderMidpoint lms) (hipMidpoint lms)
  else 0

/-- `pelvicVisible` shares the trunk visibility gate. -/
def pelvicVisible (lms : Frame) : Bool := trunkVisible lms

/-- `currentPelvicTilt`: angle at the left hip between the coordinate
origin (an explicit pseudo-landmark) and the right hip, 0 when not visible. -/
def currentPelvicTilt (lms : Frame) : ℝ :=
  if pelvicVisible lms then
    calculateAngle { x := 0, y := 0, z := 0 } (lms LEFT_HIP) (lms RIGHT_HIP)
  else 0

/-- `pelvicTiltDelta`: current tilt minus the baseline tilt when a baseline
is supplied, else 0. -/
def pelvicTiltDelta (lms : Frame) (baseline : Option Baseline) : ℝ :=
  match baseline with
  | some b => currentPelvicTilt lms - b.pelvicTilt
  | none => 0

/-- `elbowVisible`: left shoulder, elbow and wrist at the 0.3 threshold. -/
def elbowVisible (lms : Frame) : Bool :=
  isLandmarkVisible (lms LEFT_SHOULDER) 0.3 && isLandmarkVisible (lms LEFT_ELBOW) 0.3 &&
  isLandmarkVisible (lms LEFT_WRIST) 0.3

/-- `elbowAngle`: angle at the left elbow, 0 when not visible. -/
def elbowAngle (lms : Frame) : ℝ :=
  if elbowVisible lms then
    calculateAngle (lms LEFT_SHOULDER) (lms LEFT_ELBOW) (lms LEFT_WRIST)
  else 0

/-- `kneeVisible`: left hip, knee and ankle at the 0.3 threshold. -/
def kneeVisible (lms : Frame) : Bool :=
  isLandmarkVisible (lms LEFT_HIP) 0.3 && isLandmarkVisible (lms LEFT_KNEE) 0.3 &&
  isLandmarkVisible (lms LEFT_ANKLE) 0.3

/-- `kneeAngle`: angle at the left knee, 0 when not visible. -/
def kneeAngle (lms : Frame) : ℝ :=
  if kneeVisible lms then
    calculateAngle (lms LEFT_HIP) (lms LEFT_KNEE) (lms LEFT_ANKLE)
  else 0

/-- `neckVarVisible`: requires more than 10 history samples. -/
def neckVarVisible (neckHistory : List ℝ) : Bool :=
  decide (neckHistory.length > 10)

/-- `neckVariability`: sample standard deviation of the history scaled to
per-minute, 0 when not visible. -/
def neckVariability (neckHistory : List ℝ) : ℝ :=
  if neckVarVisible neckHistory then calculateStandardDeviation neckHistory * 60 else 0

/-- `scores.head` in the ergonomic-score aggregation. -/
def scoreHead (lms : Frame) : ℝ :=
  if cvaVisible lms then
    (if cvaAngle lms ≥ 50 then 1.0 else if cvaAngle lms ≥ 40 then 0.7 else 0.4)
  else 0

/-- `scores.trunk` in the ergonomic-score aggregation. -/
def scoreTrunk (lms : Frame) : ℝ :=
  if trunkVisible lms then
    (if trunkAngle lms ≤ 20 then 1.0 else if trunkAngle lms ≤ 30 then 0.7 else 0.4)
  else 0

/-- `scores.pelvis` in the ergonomic-score aggregation. -/
def scorePelvis (lms : Frame) (baseline : Option Baseline) : ℝ :=
  if pelvicVisible lms then
    (if |pelvicTiltDelta lms baseline| ≤ 10 then 1.0
     else if |pelvicTiltDelta lms baseline| ≤ 20 then 0.7 else 0.4)
  else 0

/-- `scores.upperLimb` in the ergonomic-score aggregation. -/
def scoreUpperLimb (lms : Frame) : ℝ :=
  if elbowVisible lms then
    (if elbowAngle lms ≥ 90 ∧ elbowAngle lms ≤ 110 then 1.0
     else if elbowAngle lms ≥ 75 ∧ elbowAngle lms ≤ 125 then 0.7 else 0.4)
  else 0

/-- `scores.lowerBody` in the ergonomic-score aggregation. -/
def scoreLowerBody (lms : Frame) : ℝ :=
  if kneeVisible lms then
    (if kneeAngle lms ≥ 80 ∧ kneeAngle lms ≤ 110 then 1.0
     else if kneeAngle lms ≥ 70 ∧ kneeAngle lms ≤ 120 then 0.7 else 0.4)
  else 0

/-- `ergoScore` before being wrapped by `createMetric`: weighted sum of the
five sub-scores (weights 0.25 / 0.25 / 0.15 / 0.2 / 0.15) times 100. -/
def ergoScoreVal (lms : Frame) (baseline : Option Baseline) : ℝ :=
  (scoreHead lms * 0.25 + scoreTrunk lms * 0.25 + scorePelvis lms baseline * 0.15 +
   scoreUpperLimb lms * 0.2 + scoreLowerBody lms * 0.15) * 100

/-- `calculateSittingMetrics(landmarks, baseline?, neckHistory = [])`. -/
def calculateSittingMetrics (lms : Frame) (baseline : Option Baseline)
    (neckHistory : List ℝ) : SittingMetrics :=
  { cvaDeg := createMetric (cvaAngle lms) (cvaVisible lms)
    trunkDeg := createMetric (trunkAngle lms) (trunkVisible lms)
    pelvicTiltDegDelta := createMetric (pelvicTiltDelta lms baseline) (pelvicVisible lms)
    pelvicTiltDeg := createMetric (currentPelvicTilt lms) (pelvicVisible lms)
    elbowDeg := createMetric (elbowAngle lms) (elbowVisible lms)
    kneeDeg := createMetric (kneeAngle lms) (kneeVisible lms)
    neckVarDegPerMin := createMetric (neckVariability neckHistory) (neckVarVisible neckHistory)
    ergoScore := createMetric (ergoScoreVal lms baseline) true 0.8 }

-- Frame-level posture assessment (`analyzePosture`).

/-- `PostureStatus`. -/
inductive PostureStatus where
  | good
  | slouching
  | borderline
deriving DecidableEq, Repr

/-- The `severity` field values. -/
inductive Severity where
  | low
  | medium
  | high
deriving DecidableEq, Repr

/-- The `message` strings of `analyzePosture`; `slouchingDetected` carries
the trunk-flexion value the source interpolates into its string. -/
inductive PostureMessage where
  | insufficientVisibility
  | spineNotInView
  | goodPosture
  | slouchingDetected (trunkFlexion : ℝ)
  | needsImprovement

/-- The `PostureMetrics` record (the optional `sittingMetrics` field is
never set by `analyzePosture` and is omitted). -/
structure PostureMetrics where
  headNeckAngle : ℝ
  trunkFlexion : ℝ
  shoulderWidth : ℝ
  confidence : ℝ
  spineVisible : Bool

/-- The `PostureAnalysis` record. -/
structure PostureAnalysis where
  status : PostureStatus
  metrics : PostureMetrics
  severity : Severity
  message : PostureMessage

/-- Number of the five key landmarks (both shoulders, both hips, nose)
visible at the 0.3 threshold: `visibleLandmarks.length`. -/
def keyVisibleCount (lms : Frame) : Nat :=
  (([lms LEFT_SHOULDER, lms RIGHT_SHOULDER, lms LEFT_HIP, lms RIGHT_HIP,
     lms NOSE]).filter (fun landmark => isLandmarkVisible landmark 0.3)).length

/-- `confidence = visibleLandmarks.length / keyLandmarks.length` (JS number
division). -/
def frameConfidence (lms : Frame) : ℝ := (keyVisibleCount lms : ℝ) / 5

/-- `spineMidpoint`: midpoint of the shoulder and hip midpoints. -/
def spineMidpoint (lms : Frame) : PoseLandmark :=
  getMidpoint (shoulderMidpoint lms) (hipMidpoint lms)

/-- `spineVisible`: all four of the shoulders and hips at the 0.3 threshold. -/
def spineVisibleOf (lms : Frame) : Bool :=
  isLandmarkVisible (lms LEFT_SHOULDER) 0.3 && isLandmarkVisible (lms RIGHT_SHOULDER) 0.3 &&
  isLandmarkVisible (lms LEFT_HIP) 0.3 && isLandmarkVisible (lms RIGHT_HIP) 0.3

/-- `trunkFlexion`: angle at the spine midpoint between vertical-down and
the hip midpoint when the spine is visible, else 0. -/
def trunkFlexionOf (lms : Frame) : ℝ :=
  if spineVisibleOf lms then
    calculateAngle { spineMidpoint lms with y := (spineMidpoint lms).y + 1 }
      (spineMidpoint lms) (hipMidpoint lms)
  else 0

/-- `headCenter`: ear midpoint when both ears are visible, else the nose. -/
def headCenterOf (lms : Frame) : PoseLandmark :=
  if isLandmarkVisible (lms LEFT_EAR) 0.3 && isLandmarkVisible (lms RIGHT_EAR) 0.3 then
    getMidpoint (lms LEFT_EAR) (lms RIGHT_EAR)
  else lms NOSE

/-- `headNeckAngle`: angle at the shoulder midpoint between vertical-up and
the head center. -/
def headNeckAngleOf (lms : Frame) : ℝ :=
  calculateAngle { shoulderMidpoint lms with y := (shoulderMidpoint lms).y - 1 }
    (shoulderMidpoint lms) (headCenterOf lms)

/-- The `metrics` record built in the full-visibility branch. -/
def postureMetricsOf (lms : Frame) : PostureMetrics :=
  { headNeckAngle := headNeckAngleOf lms
    trunkFlexion := trunkFlexionOf lms
    shoulderWidth := calculateDistance (lms LEFT_SHOULDER) (lms RIGHT_SHOULDER)
    confidence := frameConfidence lms
    spineVisible := spineVisibleOf lms }

/-- `analyzePosture(landmarks)`: early exit below the 0.6 confidence gate,
then first-match classification on spine visibility and trunk flexion. -/
def analyzePosture (lms : Frame) : PostureAnalysis :=
  if frameConfidence lms < 0.6 then
    { status := .borderline
      metrics := { headNeckAngle := 0, trunkFlexion := 0, shoulderWidth := 0,
                   confidence := frameConfidence lms, spineVisible := false }
      severity := .low
      message := .insufficientVisibility }
  else if spineVisibleOf lms = false then
    { status := .borderline, metrics := postureMetricsOf lms,
      severity := .low, message := .spineNotInView }
  else if trunkFlexionOf lms ≤ 15 then
    { status := .good, metrics := postureMetricsOf lms,
      severity := .low, message := .goodPosture }
  else if trunkFlexionOf lms > 25 then
    { status := .slouching, metrics := postureMetricsOf lms,
      severity := if trunkFlexionOf lms > 35 then .high else .medium,
      message := .slouchingDetected (trunkFlexionOf lms) }
  else
    { status := .borderline, metrics := postureMetricsOf lms,
      severity := .low, message := .needsImprovement }

-- One-Euro filter (`OneEuroFilter` / `LowPassFilter`), modelled as explicit
-- state records with pure update functions returning (result, new state).

/-- `LowPassFilter` state: last output, blending coefficient, first-sample flag. -/
structure LowPassState where
  y : ℝ
  alpha : ℝ
  hasLast : Bool

/-- `LowPassFilter.update(x, dt)`: snaps to the input on the first sample,
otherwise blends (`dt` is accepted and ignored, as in the source). -/
def lowPassUpdate (s : LowPassState) (x : ℝ) (dt : ℝ) : ℝ × LowPassState :=
  if s.hasLast then
    let y := s.alpha * x + (1 - s.alpha) * s.y
    (y, { s with y := y })
  else
    (x, { s with y := x, hasLast := true })

/-- `OneEuroFilter.alpha(cutoff, freq)`:
`te = 1/freq; tau = 1/(2*pi*cutoff); 1/(1 + tau/te)`. -/
def alphaFn (cutoff freq : ℝ) : ℝ :=
  1 / (1 + (1 / (2 * Real.pi * cutoff)) / (1 / freq))

/-- `OneEuroFilter` state: constructor parameters plus the two sub-filters
and the last-seen timestamp. -/
structure OneEuroState where
  minCutoff : ℝ
  beta : ℝ
  dcutoff : ℝ
  x : LowPassState
  dx : LowPassState
  lastTime : ℝ

/-- The `OneEuroFilter` constructor
(`freq = 30, minCutoff = 1.0, beta = 0.007, dcutoff = 1.0`). -/
def oneEuroInit (freq : ℝ := 30) (minCutoff : ℝ := 1.0) (beta : ℝ := 0.007)
    (dcutoff : ℝ := 1.0) : OneEuroState :=
  { minCutoff := minCutoff
    beta := beta
    dcutoff := dcutoff
    x := { y := 0, alpha := alphaFn minCutoff freq, hasLast := false }
    dx := { y := 0, alpha := alphaFn dcutoff freq, hasLast := false }
    lastTime := 0 }

/-- The elapsed-time term of `OneEuroFilter.update`:
`lastTime > 0 ? (now - lastTime) / 1000 : 1/30`. -/
def dtOf (s : OneEuroState) (now : ℝ) : ℝ :=
  if s.lastTime > 0 then (now - s.lastTime) / 1000 else 1 / 30

/-- `OneEuroFilter.update(x, timestamp)` with `now` the resolved timestamp
(`timestamp || performance.now()`).  `lastTime` is overwritten before the
`dt <= 0` early return, which yields the previous smoothed value. -/
def oneEuroUpdate (s : OneEuroState) (x : ℝ) (now : ℝ) : ℝ × OneEuroState :=
  let dt := dtOf s now
  let s1 := { s with lastTime := now }
  if dt ≤ 0 then (s1.x.y, s1)
  else
    let dx := if s1.x.hasLast then (x - s1.x.y) / dt else 0
    let edxPair := lowPassUpdate s1.dx dx dt
    let cutoff := s1.minCutoff + s1.beta * |edxPair.1|
    let xRetuned := { s1.x with alpha := alphaFn cutoff (1 / dt) }
    let outPair := lowPassUpdate xRetuned x dt
    (outPair.1, { s1 with dx := edxPair.2, x := outPair.2 })

/-- The divisor expressions evaluated by `oneEuroUpdate` on the path it
takes, in source order: the 1000 in the elapsed-time term; then, on the
`dt > 0` path, the `dt` of the derivative estimate and the divisors inside
`alpha(cutoff, 1/dt)` (its `freq` argument, `2*pi*cutoff` for `tau`,
`te = 1/freq`, and the final `1 + tau/te`). -/
def updateDivisors (s : OneEuroState) (x : ℝ) (now : ℝ) : List ℝ :=
  let dt := dtOf s now
  if dt ≤ 0 then [1000]
  else
    let dx := if s.x.hasLast then (x - s.x.y) / dt else 0
    let edxPair := lowPassUpdate s.dx dx dt
    let cutoff := s.minCutoff + s.beta * |edxPair.1|
    [1000, dt, 1 / dt, 2 * Real.pi * cutoff, 1 / (1 / dt),
     1 + (1 / (2 * Real.pi * cutoff)) / (1 / (1 / dt))]

/-!
## Theorems settling the claims
-/

/-- Claim C2: `classify` (in particular with the `METRIC_THRESHOLDS` bands)
and the specialized classifiers return exactly one of green, yellow, red
for every real input, and the boundary values resolve as the specification
table states: CVA 50 is green and 39.999 red; elbow 110 is green, 110.001
yellow and 125.001 red. -/
theorem claim2_classification_totality :
    (∀ (value : ℝ) (bands : Bands),
      classify value bands = .green ∨ classify value bands = .yellow ∨
        classify value bands = .red)
    ∧ (∀ value : ℝ, classifyElbow value = .green ∨ classifyElbow value = .yellow ∨
        classifyElbow value = .red)
    ∧ (∀ value : ℝ, classifyKnee value = .green ∨ classifyKnee value = .yellow ∨
        classifyKnee value = .red)
    ∧ (∀ value : ℝ, classifyPelvicTilt value = .green ∨ classifyPelvicTilt value = .yellow ∨
        classifyPelvicTilt value = .red)
    ∧ classify 50 METRIC_THRESHOLDS.cvaDeg = .green
    ∧ classify 39.999 METRIC_THRESHOLDS.cvaDeg = .red
    ∧ classifyElbow 110 = .green
    ∧ classifyElbow 110.001 = .yellow
    ∧ classifyElbow 125.001 = .red := by
  refine ⟨?_, ?_, ?_, ?_, ?_, ?_, ?_, ?_, ?_⟩
  · intro value bands
    unfold classify
    split_ifs <;> simp
  · intro value
    unfold classifyElbow
    split_ifs <;> simp
  · intro value
    unfold classifyKnee
    split_ifs <;> simp
  · intro value
    unfold classifyPelvicTilt
    split_ifs <;> simp
  · norm_num [classify, METRIC_THRESHOLDS]
  · norm_num [classify, METRIC_THRESHOLDS]
  · norm_num [classifyElbow]
  · norm_num [classifyElbow]
  · norm_num [classifyElbow]

/-- Claim C5: for all point triples, `calculateAngle` lies in [0, 180], and
whenever either ray from the vertex has zero magnitude in the x,y plane
(in particular when the first or third point coincides with the vertex in
x and y) it returns exactly 0. -/
theorem claim5_angle_bounds (a b c : PoseLandmark) :
    (0 ≤ calculateAngle a b c ∧ calculateAngle a b c ≤ 180) ∧
    (((a.x = b.x ∧ a.y = b.y) ∨ (c.x = b.x ∧ c.y = b.y)) → calculateAngle a b c = 0) := by
  constructor
  · unfold calculateAngle
    dsimp only
    split_ifs with h
    · norm_num
    · have hpi := Real.pi_pos
      have h1 := Real.arccos_nonneg (max (-1) (min 1
        (((a.x - b.x) * (c.x - b.x) + (a.y - b.y) * (c.y - b.y)) /
          (Real.sqrt ((a.x - b.x) * (a.x - b.x) + (a.y - b.y) * (a.y - b.y)) *
           Real.sqrt ((c.x - b.x) * (c.x - b.x) + (c.y - b.y) * (c.y - b.y))))))
      have h2 := Real.arccos_le_pi (max (-1) (min 1
        (((a.x - b.x) * (c.x - b.x) + (a.y - b.y) * (c.y - b.y)) /
          (Real.sqrt ((a.x - b.x) * (a.x - b.x) + (a.y - b.y) * (a.y - b.y)) *
           Real.sqrt ((c.x - b.x) * (c.x - b.x) + (c.y - b.y) * (c.y - b.y))))))
      constructor
      · positivity
      · rw [div_le_iff₀ hpi]
        nlinarith
  · intro h
    unfold calculateAngle
    dsimp only
    rcases h with ⟨hx, hy⟩ | ⟨hx, hy⟩
    · rw [if_pos (Or.inl (by rw [hx, hy]; simp))]
    · rw [if_pos (Or.inr (by rw [hx, hy]; simp))]

/-- Witness for C5: the degenerate triple with the first point equal to
the vertex returns 0, and the bounds hold there. -/
theorem claim5_angle_bounds_witness :
    calculateAngle ⟨1, 2, 0, none⟩ ⟨1, 2, 0, none⟩ ⟨3, 5, 0, none⟩ = 0 ∧
    (0 ≤ calculateAngle ⟨1, 2, 0, none⟩ ⟨1, 2, 0, none⟩ ⟨3, 5, 0, none⟩ ∧
      calculateAngle ⟨1, 2, 0, none⟩ ⟨1, 2, 0, none⟩ ⟨3, 5, 0, none⟩ ≤ 180) :=
  ⟨(claim5_angle_bounds _ _ _).2 (Or.inl ⟨rfl, rfl⟩), (claim5_angle_bounds _ _ _).1⟩

/-- Any metric built by `createMetric` carries a level computed from the
`cvaDeg` bands of `METRIC_THRESHOLDS` when visible, `"na"` otherwise. -/
lemma createMetric_level_eq (value : ℝ) (visible : Bool) (confidence : ℝ) :
    (createMetric value visible confidence).level =
      (if (createMetric value visible confidence).visible then
        classify (createMetric value visible confidence).value METRIC_THRESHOLDS.cvaDeg
      else .na) := by
  cases visible <;> simp [createMetric]

/-- Claim C9: every metric in the record returned by
`calculateSittingMetrics` has its `level` computed by the generic
`classify` against the CVA threshold bands (not the metric's own banding
rule, which the generic bands disagree with, e.g. at value 7 for pelvic
tilt), `"na"` when not visible. -/
theorem claim9_levels_from_cva_bands (lms : Frame) (baseline : Option Baseline)
    (neckHistory : List ℝ) :
    ((calculateSittingMetrics lms baseline neckHistory).cvaDeg.level =
      (if (calculateSittingMetrics lms baseline neckHistory).cvaDeg.visible then
        classify (calculateSittingMetrics lms baseline neckHistory).cvaDeg.value
          METRIC_THRESHOLDS.cvaDeg else .na))
    ∧ ((calculateSittingMetrics lms baseline neckHistory).trunkDeg.level =
      (if (calculateSittingMetrics lms baseline neckHistory).trunkDeg.visible then
        classify (calculateSittingMetrics lms baseline neckHistory).trunkDeg.value
          METRIC_THRESHOLDS.cvaDeg else .na))
    ∧ ((calculateSittingMetrics lms baseline neckHistory).pelvicTiltDegDelta.level =
      (if (calculateSittingMetrics lms baseline neckHistory).pelvicTiltDegDelta.visible then
        classify (calculateSittingMetrics lms baseline neckHistory).pelvicTiltDegDelta.value
          METRIC_THRESHOLDS.cvaDeg else .na))
    ∧ ((calculateSittingMetrics lms baseline neckHistory).pelvicTiltDeg.level =
      (if (calculateSittingMetrics lms baseline neckHistory).pelvicTiltDeg.visible then
        classify (calculateSittingMetrics lms baseline neckHistory).pelvicTiltDeg.value
          METRIC_THRESHOLDS.cvaDeg else .na))
    ∧ ((calculateSittingMetrics lms baseline neckHistory).elbowDeg.level =
      (if (calculateSittingMetrics lms baseline neckHistory).elbowDeg.visible then
        classify (calculateSittingMetrics lms baseline neckHistory).elbowDeg.value
          METRIC_THRESHOLDS.cvaDeg else .na))
    ∧ ((calculateSittingMetrics lms baseline neckHistory).kneeDeg.level =
      (if (calculateSittingMetrics lms baseline neckHistory).kneeDeg.visible then
        classify (calculateSittingMetrics lms baseline neckHistory).kneeDeg.value
          METRIC_THRESHOLDS.cvaDeg else .na))
    ∧ ((calculateSittingMetrics lms baseline neckHistory).neckVarDegPerMin.level =
      (if (calculateSittingMetrics lms baseline neckHistory).neckVarDegPerMin.visible then
        classify (calculateSittingMetrics lms baseline neckHistory).neckVarDegPerMin.value
          METRIC_THRESHOLDS.cvaDeg else .na))
    ∧ ((calculateSittingMetrics lms baseline neckHistory).ergoScore.level =
      (if (calculateSittingMetrics lms baseline neckHistory).ergoScore.visible then
        classify (calculateSittingMetrics lms baseline neckHistory).ergoScore.value
          METRIC_THRESHOLDS.cvaDeg else .na))
    ∧ classify 7 METRIC_THRESHOLDS.cvaDeg ≠ classifyPelvicTilt 7 := by
  refine ⟨createMetric_level_eq _ _ _, createMetric_level_eq _ _ _,
    createMetric_level_eq _ _ _, createMetric_level_eq _ _ _,
    createMetric_level_eq _ _ _, createMetric_level_eq _ _ _,
    createMetric_level_eq _ _ _, createMetric_level_eq _ _ _, ?_⟩
  norm_num [classify, classifyPelvicTilt, METRIC_THRESHOLDS]
  decide

/-- The head sub-score takes only the bucket values 0, 0.4, 0.7, 1. -/
lemma scoreHead_mem (lms : Frame) : scoreHead lms ∈ ({0, 0.4, 0.7, 1} : Set ℝ) := by
  unfold scoreHead
  split_ifs <;> norm_num

/-- The trunk sub-score takes only the bucket values 0, 0.4, 0.7, 1. -/
lemma scoreTrunk_mem (lms : Frame) : scoreTrunk lms ∈ ({0, 0.4, 0.7, 1} : Set ℝ) := by
  unfold scoreTrunk
  split_ifs <;> norm_num

/-- The pelvis sub-score takes only the bucket values 0, 0.4, 0.7, 1. -/
lemma scorePelvis_mem (lms : Frame) (baseline : Option Baseline) :
    scorePelvis lms baseline ∈ ({0, 0.4, 0.7, 1} : Set ℝ) := by
  unfold scorePelvis
  split_ifs <;> norm_num

/-- The upper-limb sub-score takes only the bucket values 0, 0.4, 0.7, 1. -/
lemma scoreUpperLimb_mem (lms : Frame) : scoreUpperLimb lms ∈ ({0, 0.4, 0.7, 1} : Set ℝ) := by
  unfold scoreUpperLimb
  split_ifs <;> norm_num

/-- The lower-body sub-score takes only the bucket values 0, 0.4, 0.7, 1. -/
lemma scoreLowerBody_mem (lms : Frame) : scoreLowerBody lms ∈ ({0, 0.4, 0.7, 1} : Set ℝ) := by
  unfold scoreLowerBody
  split_ifs <;> norm_num

/-- Bucket membership pins each sub-score into [0, 1]. -/
lemma score_bounds_of_mem {s : ℝ} (h : s ∈ ({0, 0.4, 0.7, 1} : Set ℝ)) :
    0 ≤ s ∧ s ≤ 1 := by
  simp only [Set.mem_insert_iff, Set.mem_singleton_iff] at h
  rcases h with h | h | h | h <;> norm_num [h]

/-- Claim C3: the ergonomic score is the weighted sum (head 0.25, trunk
0.25, pelvis 0.15, elbow 0.20, knee 0.15) of sub-scores drawn from
{1, 0.7, 0.4, 0}, times 100; it always lies in [0, 100], is 0 when every
sub-metric is invisible and 100 when every sub-metric is visible in its
best bucket, and is always marked visible with confidence 0.8. -/
theorem claim3_ergo_score (lms : Frame) (baseline : Option Baseline) (neckHistory : List ℝ) :
    (0 ≤ (calculateSittingMetrics lms baseline neckHistory).ergoScore.value ∧
      (calculateSittingMetrics lms baseline neckHistory).ergoScore.value ≤ 100)
    ∧ (calculateSittingMetrics lms baseline neckHistory).ergoScore.visible = true
    ∧ (calculateSittingMetrics lms baseline neckHistory).ergoScore.confidence = 0.8
    ∧ (calculateSittingMetrics lms baseline neckHistory).ergoScore.value =
        (scoreHead lms * 0.25 + scoreTrunk lms * 0.25 + scorePelvis lms baseline * 0.15 +
         scoreUpperLimb lms * 0.2 + scoreLowerBody lms * 0.15) * 100
    ∧ scoreHead lms ∈ ({0, 0.4, 0.7, 1} : Set ℝ)
    ∧ scoreTrunk lms ∈ ({0, 0.4, 0.7, 1} : Set ℝ)
    ∧ scorePelvis lms baseline ∈ ({0, 0.4, 0.7, 1} : Set ℝ)
    ∧ scoreUpperLimb lms ∈ ({0, 0.4, 0.7, 1} : Set ℝ)
    ∧ scoreLowerBody lms ∈ ({0, 0.4, 0.7, 1} : Set ℝ)
    ∧ ((cvaVisible lms = false ∧ trunkVisible lms = false ∧ elbowVisible lms = false ∧
        kneeVisible lms = false) →
        (calculateSittingMetrics lms baseline neckHistory).ergoScore.value = 0)
    ∧ ((cvaVisible lms = true ∧ 50 ≤ cvaAngle lms ∧ trunkVisible lms = true ∧
        trunkAngle lms ≤ 20 ∧ |pelvicTiltDelta lms baseline| ≤ 10 ∧ elbowVisible lms = true ∧
        90 ≤ elbowAngle lms ∧ elbowAngle lms ≤ 110 ∧ kneeVisible lms = true ∧
        80 ≤ kneeAngle lms ∧ kneeAngle lms ≤ 110) →
        (calculateSittingMetrics lms baseline neckHistory).ergoScore.value = 100) := by
  have hval : (calculateSittingMetrics lms baseline neckHistory).ergoScore.value =
      ergoScoreVal lms baseline := rfl
  have hh := score_bounds_of_mem (scoreHead_mem lms)
  have ht := score_bounds_of_mem (scoreTrunk_mem lms)
  have hp := score_bounds_of_mem (scorePelvis_mem lms baseline)
  have hu := score_bounds_of_mem (scoreUpperLimb_mem lms)
  have hl := score_bounds_of_mem (scoreLowerBody_mem lms)
  refine ⟨?_, rfl, rfl, rfl, scoreHead_mem lms, scoreTrunk_mem lms,
    scorePelvis_mem lms baseline, scoreUpperLimb_mem lms, scoreLowerBody_mem lms, ?_, ?_⟩
  · rw [hval]
    unfold ergoScoreVal
    constructor
    · nlinarith [hh.1, ht.1, hp.1, hu.1, hl.1]
    · nlinarith [hh.2, ht.2, hp.2, hu.2, hl.2]
  · rintro ⟨hc, htv, he, hk⟩
    rw [hval]
    simp [ergoScoreVal, scoreHead, scoreTrunk, scorePelvis, scoreUpperLimb, scoreLowerBody,
      pelvicVisible, hc, htv, he, hk]
  · rintro ⟨hc, hca, htv, hta, hpd, he, hea1, hea2, hk, hka1, hka2⟩
    rw [hval]
    unfold ergoScoreVal scoreHead scoreTrunk scorePelvis scoreUpperLimb scoreLowerBody
      pelvicVisible
    rw [if_pos hc, if_pos hca, if_pos htv, if_pos hta, if_pos htv, if_pos hpd,
      if_pos he, if_pos ⟨hea1, hea2⟩, if_pos hk, if_pos ⟨hka1, hka2⟩]
    norm_num

/-- A frame with every landmark absent of visibility: all gates fail. -/
def lmsAllInvisible : Frame := fun _ => { x := 0, y := 0, z := 0, visibility := none }

/-- Witness for C3: on the frame with no visible landmark the score is 0
yet the metric is reported visible with confidence 0.8. -/
theorem claim3_ergo_score_witness :
    (cvaVisible lmsAllInvisible = false ∧ trunkVisible lmsAllInvisible = false ∧
      elbowVisible lmsAllInvisible = false ∧ kneeVisible lmsAllInvisible = false) ∧
    (calculateSittingMetrics lmsAllInvisible none []).ergoScore.value = 0 ∧
    (calculateSittingMetrics lmsAllInvisible none []).ergoScore.visible = true ∧
    (calculateSittingMetrics lmsAllInvisible none []).ergoScore.confidence = 0.8 := by
  have hc : cvaVisible lmsAllInvisible = false := by
    norm_num [cvaVisible, isLandmarkVisible, visOr0, lmsAllInvisible]
  have ht : trunkVisible lmsAllInvisible = false := by
    norm_num [trunkVisible, isLandmarkVisible, visOr0, lmsAllInvisible]
  have he : elbowVisible lmsAllInvisible = false := by
    norm_num [elbowVisible, isLandmarkVisible, visOr0, lmsAllInvisible]
  have hk : kneeVisible lmsAllInvisible = false := by
    norm_num [kneeVisible, isLandmarkVisible, visOr0, lmsAllInvisible]
  exact ⟨⟨hc, ht, he, hk⟩,
    (claim3_ergo_score lmsAllInvisible none []).2.2.2.2.2.2.2.2.2.1 ⟨hc, ht, he, hk⟩,
    (claim3_ergo_score lmsAllInvisible none []).2.1,
    (claim3_ergo_score lmsAllInvisible none []).2.2.1⟩

/-- Claim C4 (amended): whenever a metric's required-landmark gate fails,
`calculateSittingMetrics` returns that metric with `visible = false` and
`level = "na"`; the value is 0 for every gated metric except
`pelvicTiltDegDelta`, whose value is `-baseline.pelvicTilt` when a
baseline is supplied (0 only without a baseline). -/
theorem claim4_visibility_gating (lms : Frame) (baseline : Option Baseline)
    (neckHistory : List ℝ) :
    (cvaVisible lms = false →
      (calculateSittingMetrics lms baseline neckHistory).cvaDeg.visible = false ∧
      (calculateSittingMetrics lms baseline neckHistory).cvaDeg.value = 0 ∧
      (calculateSittingMetrics lms baseline neckHistory).cvaDeg.level = .na)
    ∧ (trunkVisible lms = false →
      (calculateSittingMetrics lms baseline neckHistory).trunkDeg.visible = false ∧
      (calculateSittingMetrics lms baseline neckHistory).trunkDeg.value = 0 ∧
      (calculateSittingMetrics lms baseline neckHistory).trunkDeg.level = .na)
    ∧ (trunkVisible lms = false →
      (calculateSittingMetrics lms baseline neckHistory).pelvicTiltDeg.visible = false ∧
      (calculateSittingMetrics lms baseline neckHistory).pelvicTiltDeg.value = 0 ∧
      (calculateSittingMetrics lms baseline neckHistory).pelvicTiltDeg.level = .na)
    ∧ (trunkVisible lms = false →
      (calculateSittingMetrics lms baseline neckHistory).pelvicTiltDegDelta.visible = false ∧
      (calculateSittingMetrics lms baseline neckHistory).pelvicTiltDegDelta.level = .na ∧
      (calculateSittingMetrics lms baseline neckHistory).pelvicTiltDegDelta.value =
        (match baseline with
         | none => 0
         | some b => -b.pelvicTilt))
    ∧ (elbowVisible lms = false →
      (calculateSittingMetrics lms baseline neckHistory).elbowDeg.visible = false ∧
      (calculateSittingMetrics lms baseline neckHistory).elbowDeg.value = 0 ∧
      (calculateSittingMetrics lms baseline neckHistory).elbowDeg.level = .na)
    ∧ (kneeVisible lms = false →
      (calculateSittingMetrics lms baseline neckHistory).kneeDeg.visible = false ∧
      (calculateSittingMetrics lms baseline neckHistory).kneeDeg.value = 0 ∧
      (calculateSittingMetrics lms baseline neckHistory).kneeDeg.level = .na) := by
  refine ⟨?_, ?_, ?_, ?_, ?_, ?_⟩
  · intro h
    refine ⟨?_, ?_, ?_⟩ <;>
      simp [calculateSittingMetrics, createMetric, cvaAngle, h]
  · intro h
    refine ⟨?_, ?_, ?_⟩ <;>
      simp [calculateSittingMetrics, createMetric, trunkAngle, h]
  · intro h
    refine ⟨?_, ?_, ?_⟩ <;>
      simp [calculateSittingMetrics, createMetric, currentPelvicTilt, pelvicVisible, h]
  · intro h
    refine ⟨?_, ?_, ?_⟩
    · simp [calculateSittingMetrics, createMetric, pelvicVisible, h]
    · simp [calculateSittingMetrics, createMetric, pelvicVisible, h]
    · cases baseline with
      | none => simp [calculateSittingMetrics, createMetric, pelvicTiltDelta]
      | some b =>
          simp [calculateSittingMetrics, createMetric, pelvicTiltDelta, currentPelvicTilt,
            pelvicVisible, h]
  · intro h
    refine ⟨?_, ?_, ?_⟩ <;>
      simp [calculateSittingMetrics, createMetric, elbowAngle, h]
  · intro h
    refine ⟨?_, ?_, ?_⟩ <;>
      simp [calculateSittingMetrics, createMetric, kneeAngle, h]

/-- A frame with the left hip below the visibility threshold and every
other landmark fully visible. -/
def lmsLeftHipLow : Frame := fun i =>
  if i = LEFT_HIP then { x := 0, y := 0, z := 0, visibility := some 0.2 }
  else { x := 0, y := 0, z := 0, visibility := some 1 }

/-- Counterexample to C4 as stated: with the left hip at visibility 0.2
(below 0.3) and a baseline pelvic tilt of 5, the gated `pelvicTiltDegDelta`
metric comes back with value -5, not the claimed 0. -/
theorem claim4_visibility_gating_counterexample :
    visOr0 (lmsLeftHipLow LEFT_HIP) < 0.3 ∧
    (calculateSittingMetrics lmsLeftHipLow (some ⟨5, 1⟩) []).pelvicTiltDegDelta.visible = false ∧
    (calculateSittingMetrics lmsLeftHipLow (some ⟨5, 1⟩) []).pelvicTiltDegDelta.value = -5 ∧
    ¬ (calculateSittingMetrics lmsLeftHipLow (some ⟨5, 1⟩) []).pelvicTiltDegDelta.value = 0 := by
  have ht : trunkVisible lmsLeftHipLow = false := by
    norm_num [trunkVisible, isLandmarkVisible, visOr0, lmsLeftHipLow,
      LEFT_SHOULDER, RIGHT_SHOULDER, LEFT_HIP, RIGHT_HIP]
  refine ⟨by norm_num [visOr0, lmsLeftHipLow], ?_, ?_, ?_⟩
  · simp [calculateSittingMetrics, createMetric, pelvicVisible, ht]
  · norm_num [calculateSittingMetrics, createMetric, pelvicTiltDelta, currentPelvicTilt,
      pelvicVisible, ht]
  · norm_num [calculateSittingMetrics, createMetric, pelvicTiltDelta, currentPelvicTilt,
      pelvicVisible, ht]

/-- A frame with the left ear at visibility 0.2 and every other landmark
fully visible (the claim's own example input). -/
def lmsLeftEarLow : Frame := fun i =>
  if i = LEFT_EAR then { x := 0, y := 0, z := 0, visibility := some 0.2 }
  else { x := 0, y := 0, z := 0, visibility := some 1 }

/-- Witness for C4 (amended): left-ear visibility 0.2 with everything else
at 1.0 yields `cvaDeg.visible = false`, `value = 0`, `level = "na"`. -/
theorem claim4_visibility_gating_witness :
    cvaVisible lmsLeftEarLow = false ∧
    (calculateSittingMetrics lmsLeftEarLow none []).cvaDeg.visible = false ∧
    (calculateSittingMetrics lmsLeftEarLow none []).cvaDeg.value = 0 ∧
    (calculateSittingMetrics lmsLeftEarLow none []).cvaDeg.level = .na := by
  have hc : cvaVisible lmsLeftEarLow = false := by
    norm_num [cvaVisible, isLandmarkVisible, visOr0, lmsLeftEarLow,
      LEFT_EAR, RIGHT_EAR, LEFT_SHOULDER, RIGHT_SHOULDER]
  exact ⟨hc, (claim4_visibility_gating lmsLeftEarLow none []).1 hc⟩

/-- A calibration-scenario frame: shoulders and hips fully visible, with
the hip line at 12 degrees to the ray from the left hip to the origin. -/
def lmsCalib : Frame := fun i =>
  if i = LEFT_SHOULDER then { x := 0, y := -1, z := 0, visibility := some 1 }
  else if i = RIGHT_SHOULDER then { x := 1, y := -1, z := 0, visibility := some 1 }
  else if i = LEFT_HIP then { x := -1, y := 0, z := 0, visibility := some 1 }
  else if i = RIGHT_HIP then
    { x := -1 + Real.cos (12 * Real.pi / 180), y := Real.sin (12 * Real.pi / 180), z := 0,
      visibility := some 1 }
  else { x := 0, y := 0, z := 0, visibility := none }

/-- On the calibration frame the trunk (and hence pelvic) gate passes. -/
lemma lmsCalib_trunkVisible : trunkVisible lmsCalib = true := by
  norm_num [trunkVisible, isLandmarkVisible, visOr0, lmsCalib,
    LEFT_SHOULDER, RIGHT_SHOULDER, LEFT_HIP, RIGHT_HIP]

/-- The angle at the left hip between the origin and the right hip of the
calibration frame evaluates to exactly 12 degrees. -/
lemma lmsCalib_angle_12 :
    calculateAngle { x := 0, y := 0, z := 0 } { x := -1, y := 0, z := 0, visibility := some 1 }
      { x := -1 + Real.cos (12 * Real.pi / 180), y := Real.sin (12 * Real.pi / 180), z := 0,
        visibility := some 1 } = 12 := by
  have hpi := Real.pi_pos
  have h0 : 0 ≤ 12 * Real.pi / 180 := by positivity
  have h1 : 12 * Real.pi / 180 ≤ Real.pi := by nlinarith
  have hcos : Real.cos (12 * Real.pi / 180) * Real.cos (12 * Real.pi / 180) +
      Real.sin (12 * Real.pi / 180) * Real.sin (12 * Real.pi / 180) = 1 := by
    nlinarith [Real.sin_sq_add_cos_sq (12 * Real.pi / 180)]
  unfold calculateAngle
  norm_num
  rw [hcos, Real.sqrt_one]
  norm_num
  rw [min_eq_right (Real.cos_le_one _), max_eq_right (Real.neg_one_le_cos _)]
  rw [Real.arccos_cos h0 h1]
  field_simp

/-- The calibration frame's current pelvic tilt is 12 degrees. -/
lemma lmsCalib_tilt : currentPelvicTilt lmsCalib = 12 := by
  have hv : pelvicVisible lmsCalib = true := lmsCalib_trunkVisible
  have hLH : lmsCalib LEFT_HIP = { x := -1, y := 0, z := 0, visibility := some 1 } := rfl
  have hRH : lmsCalib RIGHT_HIP =
      { x := -1 + Real.cos (12 * Real.pi / 180), y := Real.sin (12 * Real.pi / 180), z := 0,
        visibility := some 1 } := rfl
  rw [currentPelvicTilt, if_pos hv, hLH, hRH]
  exact lmsCalib_angle_12

/-- Claim C1 (amended): with baseline pelvic tilt 5 and a frame whose
current pelvic tilt is 12 (hip/shoulder gate passing),
`pelvicTiltDegDelta.value = 7` as claimed, but the `level` in the record
returned by `calculateSittingMetrics` is `classify 7` on the CVA bands,
i.e. `"red"` (a placeholder the caller later overrides), whereas
`classifyPelvicTilt 7 = "green"`. -/
theorem claim1_calibration_roundtrip (lms : Frame) (w : ℝ) (neckHistory : List ℝ)
    (hvis : trunkVisible lms = true) (htilt : currentPelvicTilt lms = 12) :
    (calculateSittingMetrics lms (some ⟨5, w⟩) neckHistory).pelvicTiltDegDelta.value = 7 ∧
    (calculateSittingMetrics lms (some ⟨5, w⟩) neckHistory).pelvicTiltDegDelta.visible = true ∧
    (calculateSittingMetrics lms (some ⟨5, w⟩) neckHistory).pelvicTiltDegDelta.level =
      classify 7 METRIC_THRESHOLDS.cvaDeg ∧
    (calculateSittingMetrics lms (some ⟨5, w⟩) neckHistory).pelvicTiltDegDelta.level = .red ∧
    classifyPelvicTilt 7 = .green := by
  have hd : pelvicTiltDelta lms (some ⟨5, w⟩) = 7 := by
    simp [pelvicTiltDelta, htilt]
    norm_num
  have hv : pelvicVisible lms = true := hvis
  refine ⟨hd, hv, ?_, ?_, ?_⟩
  · simp only [calculateSittingMetrics, createMetric, if_pos hv, hd]
  · simp only [calculateSittingMetrics, createMetric, if_pos hv, hd]
    norm_num [classify, METRIC_THRESHOLDS]
  · norm_num [classifyPelvicTilt]

/-- Counterexample to C1 as stated: on the calibration frame (current
tilt 12, baseline 5) the returned `pelvicTiltDegDelta.level` is `"red"`,
not `classifyPelvicTilt 7 = "green"` as the claim asserts. -/
theorem claim1_calibration_roundtrip_counterexample :
    currentPelvicTilt lmsCalib = 12 ∧
    (calculateSittingMetrics lmsCalib (some ⟨5, 1⟩) []).pelvicTiltDegDelta.value = 7 ∧
    classifyPelvicTilt 7 = .green ∧
    (calculateSittingMetrics lmsCalib (some ⟨5, 1⟩) []).pelvicTiltDegDelta.level = .red ∧
    ¬ (calculateSittingMetrics lmsCalib (some ⟨5, 1⟩) []).pelvicTiltDegDelta.level =
        classifyPelvicTilt 7 := by
  have hv : pelvicVisible lmsCalib = true := lmsCalib_trunkVisible
  have hd : pelvicTiltDelta lmsCalib (some ⟨5, 1⟩) = 7 := by
    simp [pelvicTiltDelta, lmsCalib_tilt]
    norm_num
  have hlevel : (calculateSittingMetrics lmsCalib (some ⟨5, 1⟩) []).pelvicTiltDegDelta.level =
      .red := by
    simp only [calculateSittingMetrics, createMetric, if_pos hv, hd]
    norm_num [classify, METRIC_THRESHOLDS]
  have hgreen : classifyPelvicTilt 7 = Level.green := by norm_num [classifyPelvicTilt]
  refine ⟨lmsCalib_tilt, hd, hgreen, hlevel, ?_⟩
  rw [hlevel, hgreen]
  decide

/-- Witness for C1 (amended): the hypotheses hold on the calibration
frame, where the amended conclusions follow. -/
theorem claim1_calibration_roundtrip_witness :
    trunkVisible lmsCalib = true ∧ currentPelvicTilt lmsCalib = 12 ∧
    ((calculateSittingMetrics lmsCalib (some ⟨5, 1⟩) []).pelvicTiltDegDelta.value = 7 ∧
      (calculateSittingMetrics lmsCalib (some ⟨5, 1⟩) []).pelvicTiltDegDelta.visible = true ∧
      (calculateSittingMetrics lmsCalib (some ⟨5, 1⟩) []).pelvicTiltDegDelta.level =
        classify 7 METRIC_THRESHOLDS.cvaDeg ∧
      (calculateSittingMetrics lmsCalib (some ⟨5, 1⟩) []).pelvicTiltDegDelta.level = .red ∧
      classifyPelvicTilt 7 = .green) :=
  ⟨lmsCalib_trunkVisible, lmsCalib_tilt,
    claim1_calibration_roundtrip lmsCalib 1 [] lmsCalib_trunkVisible lmsCalib_tilt⟩

/-- Claim C7: with fewer than 3 of the 5 key landmarks visible (so frame
confidence below 0.6), `analyzePosture` early-exits with the borderline /
low / insufficient-visibility record, all numeric metrics 0 and
`spineVisible = false`. -/
theorem claim7_low_confidence_early_exit (lms : Frame) (h : keyVisibleCount lms < 3) :
    analyzePosture lms =
      { status := .borderline
        metrics := { headNeckAngle := 0, trunkFlexion := 0, shoulderWidth := 0,
                     confidence := frameConfidence lms, spineVisible := false }
        severity := .low
        message := .insufficientVisibility } := by
  have hconf : frameConfidence lms < 0.6 := by
    have hn : (keyVisibleCount lms : ℝ) ≤ 2 := by
      exact_mod_cast Nat.lt_succ_iff.mp h
    unfold frameConfidence
    nlinarith
  rw [analyzePosture, if_pos hconf]

/-- A frame with only the nose visible (visibility 1), every other
landmark at visibility 0. -/
def lmsNoseOnly : Frame := fun i =>
  if i = NOSE then { x := 0, y := 0, z := 0, visibility := some 1 }
  else { x := 0, y := 0, z := 0, visibility := some 0 }

/-- Witness for C7: only the nose visible gives confidence 1/5 = 0.2 and
the early-exit record. -/
theorem claim7_low_confidence_early_exit_witness :
    keyVisibleCount lmsNoseOnly < 3 ∧ frameConfidence lmsNoseOnly = 0.2 ∧
    analyzePosture lmsNoseOnly =
      { status := .borderline
        metrics := { headNeckAngle := 0, trunkFlexion := 0, shoulderWidth := 0,
                     confidence := frameConfidence lmsNoseOnly, spineVisible := false }
        severity := .low
        message := .insufficientVisibility } := by
  have hcount : keyVisibleCount lmsNoseOnly = 1 := by
    norm_num [keyVisibleCount, isLandmarkVisible, visOr0, lmsNoseOnly, List.filter,
      NOSE, LEFT_SHOULDER, RIGHT_SHOULDER, LEFT_HIP, RIGHT_HIP]
  refine ⟨by rw [hcount]; norm_num, by rw [frameConfidence, hcount]; norm_num, ?_⟩
  exact claim7_low_confidence_early_exit lmsNoseOnly (by rw [hcount]; norm_num)

/-- Claim C8: past the confidence gate, `analyzePosture` decides status by
first match: spine not visible, then trunk flexion at most 15, then trunk
flexion above 25 (high severity above 35, else medium), else the
borderline needs-improvement result. -/
theorem claim8_classification_order (lms : Frame) (h : ¬ frameConfidence lms < 0.6) :
    (spineVisibleOf lms = false →
      (analyzePosture lms).status = .borderline ∧ (analyzePosture lms).severity = .low ∧
      (analyzePosture lms).message = .spineNotInView)
    ∧ (spineVisibleOf lms = true → trunkFlexionOf lms ≤ 15 →
      (analyzePosture lms).status = .good ∧ (analyzePosture lms).severity = .low ∧
      (analyzePosture lms).message = .goodPosture)
    ∧ (spineVisibleOf lms = true → ¬ trunkFlexionOf lms ≤ 15 → trunkFlexionOf lms > 25 →
      (analyzePosture lms).status = .slouching ∧
      (analyzePosture lms).severity =
        (if trunkFlexionOf lms > 35 then Severity.high else Severity.medium))
    ∧ (spineVisibleOf lms = true → ¬ trunkFlexionOf lms ≤ 15 → ¬ trunkFlexionOf lms > 25 →
      (analyzePosture lms).status = .borderline ∧ (analyzePosture lms).severity = .low ∧
      (analyzePosture lms).message = .needsImprovement) := by
  refine ⟨?_, ?_, ?_, ?_⟩
  · intro hs
    rw [analyzePosture, if_neg h, if_pos hs]
    exact ⟨rfl, rfl, rfl⟩
  · intro hs htf
    rw [analyzePosture, if_neg h, if_neg (by rw [hs]; simp), if_pos htf]
    exact ⟨rfl, rfl, rfl⟩
  · intro hs htf htf25
    rw [analyzePosture, if_neg h, if_neg (by rw [hs]; simp), if_neg htf, if_pos htf25]
    exact ⟨rfl, rfl⟩
  · intro hs htf htf25
    rw [analyzePosture, if_neg h, if_neg (by rw [hs]; simp), if_neg htf, if_neg htf25]
    exact ⟨rfl, rfl, rfl⟩

/-- An upright frame: level shoulders directly above level hips, nose
above, everything fully visible. -/
def lmsUpright : Frame := fun i =>
  if i = LEFT_SHOULDER then { x := -1, y := -1, z := 0, visibility := some 1 }
  else if i = RIGHT_SHOULDER then { x := 1, y := -1, z := 0, visibility := some 1 }
  else if i = LEFT_HIP then { x := -1, y := 1, z := 0, visibility := some 1 }
  else if i = RIGHT_HIP then { x := 1, y := 1, z := 0, visibility := some 1 }
  else if i = NOSE then { x := 0, y := -2, z := 0, visibility := some 1 }
  else { x := 0, y := 0, z := 0, visibility := none }

/-- On the upright frame the confidence gate passes. -/
lemma lmsUpright_confidence : frameConfidence lmsUpright = 1 := by
  have hcount : keyVisibleCount lmsUpright = 5 := by
    norm_num [keyVisibleCount, isLandmarkVisible, visOr0, lmsUpright, List.filter,
      NOSE, LEFT_SHOULDER, RIGHT_SHOULDER, LEFT_HIP, RIGHT_HIP]
  rw [frameConfidence, hcount]
  norm_num

/-- On the upright frame the spine is visible. -/
lemma lmsUpright_spine : spineVisibleOf lmsUpright = true := by
  norm_num [spineVisibleOf, isLandmarkVisible, visOr0, lmsUpright,
    LEFT_SHOULDER, RIGHT_SHOULDER, LEFT_HIP, RIGHT_HIP]

/-- On the upright frame the trunk flexion is exactly 0. -/
lemma lmsUpright_trunkFlexion : trunkFlexionOf lmsUpright = 0 := by
  have hsm : spineMidpoint lmsUpright = { x := 0, y := 0, z := 0, visibility := some 1 } := by
    simp [spineMidpoint, shoulderMidpoint, hipMidpoint, getMidpoint, visOr0, lmsUpright,
      LEFT_SHOULDER, RIGHT_SHOULDER, LEFT_HIP, RIGHT_HIP]
  have hhm : hipMidpoint lmsUpright = { x := 0, y := 1, z := 0, visibility := some 1 } := by
    simp [hipMidpoint, getMidpoint, visOr0, lmsUpright,
      LEFT_SHOULDER, RIGHT_SHOULDER, LEFT_HIP, RIGHT_HIP]
  rw [trunkFlexionOf, if_pos lmsUpright_spine, hsm, hhm]
  norm_num [calculateAngle, Real.sqrt_one, Real.arccos_one]

/-- Witness for C8: the upright frame passes the gate, its spine is
visible and trunk flexion 0, so the first-match order yields the good /
low result. -/
theorem claim8_classification_order_witness :
    ¬ frameConfidence lmsUpright < 0.6 ∧ spineVisibleOf lmsUpright = true ∧
    trunkFlexionOf lmsUpright ≤ 15 ∧
    ((analyzePosture lmsUpright).status = .good ∧ (analyzePosture lmsUpright).severity = .low ∧
      (analyzePosture lmsUpright).message = .goodPosture) := by
  have hg : ¬ frameConfidence lmsUpright < 0.6 := by
    rw [lmsUpright_confidence]
    norm_num
  have htf : trunkFlexionOf lmsUpright ≤ 15 := by
    rw [lmsUpright_trunkFlexion]
    norm_num
  exact ⟨hg, lmsUpright_spine, htf,
    (claim8_classification_order lmsUpright hg).2.1 lmsUpright_spine htf⟩

/-- Claim C6 (amended): on a first-ever sample (stored last-time not yet
positive) the elapsed-time term falls back to the nominal 1/30 s interval
and the update takes the normal path; with a positive minimum cutoff and
nonnegative beta (the constructor defaults) every divisor the update
evaluates is nonzero, so the real-number model of the computation never
divides by zero (and the JS computation produces no NaN).  A
non-increasing timestamp after a positive stored time does not use the
1/30 fallback: it early-returns the previous smoothed value instead (see
the counterexample and claim C10). -/
theorem claim6_timestamp_fallback (s : OneEuroState) (x now : ℝ)
    (hfirst : s.lastTime ≤ 0) (hmin : 0 < s.minCutoff) (hbeta : 0 ≤ s.beta) :
    dtOf s now = 1 / 30 ∧ ¬ dtOf s now ≤ 0 ∧
    ∀ d ∈ updateDivisors s x now, d ≠ 0 := by
  have hdt : dtOf s now = 1 / 30 := by
    rw [dtOf, if_neg (not_lt.mpr hfirst)]
  refine ⟨hdt, by rw [hdt]; norm_num, ?_⟩
  intro d hd
  rw [updateDivisors, hdt, if_neg (by norm_num : ¬ (1 / 30 : ℝ) ≤ 0)] at hd
  have hcut : 0 < s.minCutoff + s.beta *
      |(lowPassUpdate s.dx (if s.x.hasLast = true then (x - s.x.y) / (1 / 30) else 0)
        (1 / 30)).1| := by
    have habs := abs_nonneg ((lowPassUpdate s.dx
      (if s.x.hasLast = true then (x - s.x.y) / (1 / 30) else 0) (1 / 30)).1)
    nlinarith
  have hpi := Real.pi_pos
  simp only [List.mem_cons, List.not_mem_nil, or_false] at hd
  rcases hd with h | h | h | h | h | h <;> rw [h]
  · norm_num
  · norm_num
  · norm_num
  · positivity
  · norm_num
  · have htau : 0 < 1 / (2 * Real.pi * (s.minCutoff + s.beta *
        |(lowPassUpdate s.dx (if s.x.hasLast = true then (x - s.x.y) / (1 / 30) else 0)
          (1 / 30)).1|)) := by positivity
    have hte : (0:ℝ) < 1 / (1 / (1 / 30)) := by norm_num
    positivity

/-- The filter state after one update of a freshly constructed filter
(default parameters) with value 1 at timestamp 1000. -/
def sAfterFirst : OneEuroState := (oneEuroUpdate (oneEuroInit 30 1 0.007 1) 1 1000).2

/-- Counterexample to C6 as stated: after a first sample at timestamp
1000, a second call at the same timestamp computes an elapsed-time term of
0 — not the claimed 1/30 fallback — and returns the previous smoothed
value 1 unchanged. -/
theorem claim6_timestamp_fallback_counterexample :
    sAfterFirst.lastTime = 1000 ∧
    dtOf sAfterFirst 1000 = 0 ∧
    ¬ dtOf sAfterFirst 1000 = 1 / 30 ∧
    (oneEuroUpdate sAfterFirst 2 1000).1 = 1 := by
  have hlast : sAfterFirst.lastTime = 1000 := by
    norm_num [sAfterFirst, oneEuroUpdate, oneEuroInit, dtOf, lowPassUpdate, alphaFn]
  have hxy : sAfterFirst.x.y = 1 := by
    norm_num [sAfterFirst, oneEuroUpdate, oneEuroInit, dtOf, lowPassUpdate, alphaFn]
  have hdt : dtOf sAfterFirst 1000 = 0 := by
    rw [dtOf, if_pos (by rw [hlast]; norm_num), hlast]
    norm_num
  refine ⟨hlast, hdt, by rw [hdt]; norm_num, ?_⟩
  simp only [oneEuroUpdate, hdt, if_pos (le_refl (0:ℝ))]
  exact hxy

/-- Claim C10: a call with `dt <= 0` (stored last-time positive, new
timestamp not later) returns the previous smoothed value with both
low-pass sub-filter states unchanged, yet still overwrites the stored
last-time with the rejected timestamp, from which the next call's elapsed
time is then measured. -/
theorem claim10_rejected_timestamp_overwrites (s : OneEuroState) (x now : ℝ)
    (h1 : 0 < s.lastTime) (h2 : now ≤ s.lastTime) :
    oneEuroUpdate s x now = (s.x.y, { s with lastTime := now }) ∧
    ∀ now2 : ℝ, 0 < now →
      dtOf { s with lastTime := now } now2 = (now2 - now) / 1000 := by
  have hdt : dtOf s now ≤ 0 := by
    rw [dtOf, if_pos h1, div_nonpos_iff]
    right
    constructor
    · linarith
    · norm_num
  constructor
  · simp only [oneEuroUpdate, if_pos hdt]
  · intro now2 hnow
    rw [dtOf, if_pos hnow]

/-- A concrete One-Euro state with a positive stored timestamp. -/
def sStale : OneEuroState :=
  { minCutoff := 1, beta := 0.007, dcutoff := 1
    x := { y := 5, alpha := 0.5, hasLast := true }
    dx := { y := 0, alpha := 0.5, hasLast := true }
    lastTime := 1000 }

/-- Witness for C10: a call at the earlier timestamp 900 returns the
stored smoothed value 5 and re-bases the next elapsed time on 900. -/
theorem claim10_rejected_timestamp_overwrites_witness :
    (0:ℝ) < sStale.lastTime ∧ (900:ℝ) ≤ sStale.lastTime ∧
    oneEuroUpdate sStale 7 900 = (sStale.x.y, { sStale with lastTime := 900 }) ∧
    dtOf { sStale with lastTime := 900 } 2900 = (2900 - 900) / 1000 :=
  ⟨by norm_num [sStale], by norm_num [sStale],
    (claim10_rejected_timestamp_overwrites sStale 7 900 (by norm_num [sStale])
      (by norm_num [sStale])).1,
    (claim10_rejected_timestamp_overwrites sStale 7 900 (by norm_num [sStale])
      (by norm_num [sStale])).2 2900 (by norm_num)⟩

/-- Witness for C6 (amended): a freshly constructed filter has last-time
0, so its first update at timestamp 1000 uses the 1/30 fallback and all
its divisors are nonzero. -/
theorem claim6_timestamp_fallback_witness :
    (oneEuroInit 30 1 0.007 1).lastTime ≤ 0 ∧ (0:ℝ) < (oneEuroInit 30 1 0.007 1).minCutoff ∧
    (0:ℝ) ≤ (oneEuroInit 30 1 0.007 1).beta ∧
    (dtOf (oneEuroInit 30 1 0.007 1) 1000 = 1 / 30 ∧
      ¬ dtOf (oneEuroInit 30 1 0.007 1) 1000 ≤ 0 ∧
      ∀ d ∈ updateDivisors (oneEuroInit 30 1 0.007 1) 1 1000, d ≠ 0) :=
  ⟨by norm_num [oneEuroInit], by norm_num [oneEuroInit], by norm_num [oneEuroInit],
    claim6_timestamp_fallback (oneEuroInit 30 1 0.007 1) 1 1000
      (by norm_num [oneEuroInit]) (by norm_num [oneEuroInit]) (by norm_num [oneEuroInit])⟩

end





